import Mathlib

/-!
Verification development for the Beatmap repository (EDMTrain NYC event scraper).

The HTTP layer under verification is `src/backend/server.js`.  Its two handlers,
`GET /api/events` and `POST /api/scrape`, are shallowly embedded below as pure
functions over a small JSON value type.  External effects are passed in as
explicit data:
  * the result of `fs.readFile` on `data/latest_events.json` is a `ReadResult`;
  * `JSON.parse` is an abstract parsing oracle `String → ParseResult`, so each
    theorem holds for every possible parser behaviour;
  * `new Date().toISOString()` at serve time is a `now : String` parameter;
  * the `execPromise("python3 scraper.py")` subprocess result is an `ExecResult`.

The scraper itself (`scraper.py`, containing the Run Controller, Store and
Deduplicator of the spec) is not part of the sources; where a claim depends on
it, the missing component is modelled from the spec and marked as such.
-/

namespace Beatmap

/-- JSON values, as produced by `JSON.parse` and consumed by `res.json`.
Numbers are modelled as integers (no claim involves fractional numbers). -/
inductive Json where
  | null
  | bool (b : Bool)
  | num (n : Int)
  | str (s : String)
  | arr (elems : List Json)
  | obj (fields : List (String × Json))

/-- Whether a JSON value is `null`.  In `server.js`, accessing `.length` on a
parsed `null` throws a `TypeError`, so handlers branch on this. -/
def Json.isNull : Json → Bool
  | .null => true
  | _ => false

/-- JavaScript property access `v.key` on a parsed JSON value: a value for
object properties, `undefined` (here `none`) otherwise. -/
def lookupField : Json → String → Option Json
  | .obj fields, key => fields.lookup key
  | _, _ => none

/-- JavaScript truthiness of a parsed JSON value, as tested by `||`. -/
def jsTruthy : Json → Bool
  | .null => false
  | .bool b => b
  | .num n => n != 0
  | .str s => s != ""
  | .arr _ => true
  | .obj _ => true

/-- JavaScript indexing `v[0]` restricted to the cases where a subsequent
property access can yield a defined value: element `0` of an array, or the
`"0"` property of an object.  On strings and primitives, `v[0]?.scraped_at`
is always `undefined`, which the `none` case covers. -/
def jsIndex0 : Json → Option Json
  | .arr (e :: _) => some e
  | .obj fields => fields.lookup "0"
  | _ => none

/-- The expression `events[0]?.scraped_at` from the `GET /api/events` handler. -/
def firstScrapedAt (events : Json) : Option Json :=
  match jsIndex0 events with
  | some e => lookupField e "scraped_at"
  | none => none

/-- `events[0]?.scraped_at || new Date().toISOString()` — the `last_updated`
value of the scraped-data response. -/
def lastUpdatedValue (events : Json) (now : String) : Json :=
  match firstScrapedAt events with
  | some v => if jsTruthy v then v else .str now
  | none => .str now

/-- An HTTP response: status code plus JSON body (`res.status(...).json(...)`;
`res.json(...)` alone sends status 200). -/
structure Response where
  status : Nat
  body : Json

/-- Result of `fs.readFile(eventsFile, "utf8")`: the file's contents, or a
rejection (missing file, permission error, ...). -/
inductive ReadResult where
  | failure (msg : String)
  | success (content : String)

/-- Result of `JSON.parse` on a string: a JSON value or a thrown `SyntaxError`. -/
inductive ParseResult where
  | parseError (msg : String)
  | ok (v : Json)

/-- Body sent by `GET /api/events` when reading or parsing
`latest_events.json` fails (the inner `catch` branch). -/
def noneBody : Json :=
  .obj [("success", .bool true), ("data", .arr []), ("source", .str "none"),
        ("message", .str "No events data available. Run the scraper to fetch today's events.")]

/-- Body sent by `GET /api/events` when the file was read and parsed. -/
def scrapedBody (events : Json) (now : String) : Json :=
  .obj [("success", .bool true), ("data", events), ("source", .str "scraped"),
        ("last_updated", lastUpdatedValue events now)]

/-- The `GET /api/events` handler of `src/backend/server.js`.  The inner
`try` covers the file read, `JSON.parse`, and the `events.length` template
interpolation; any throw there lands in the inner `catch`, which sends
`noneBody` with status 200.  When the parsed value is `null`,
`events.length` throws a `TypeError`, so that case also sends `noneBody`. -/
def getEventsResponse (read : ReadResult) (parse : String → ParseResult)
    (now : String) : Response :=
  match read with
  | .failure _ => ⟨200, noneBody⟩
  | .success content =>
    match parse content with
    | .parseError _ => ⟨200, noneBody⟩
    | .ok events =>
      if events.isNull then ⟨200, noneBody⟩
      else ⟨200, scrapedBody events now⟩

/-- Result of `await execPromise("python3 scraper.py")`: captured stdout and
stderr on exit status 0, or a rejection (non-zero exit, spawn failure). -/
inductive ExecResult where
  | failure (msg : String)
  | success (stdout stderr : String)

/-- JavaScript `.length` on a parsed JSON value: the element count of an
array, the length of a string, and `undefined` (here `none`) otherwise.
(`null.length` throws instead; callers test `Json.isNull` first.) -/
def jsLength : Json → Option Int
  | .arr xs => some xs.length
  | .str s => some s.length
  | _ => none

/-- Body of the `POST /api/scrape` `catch` branch:
`res.status(500).json({ error: ..., details: error.message })`. -/
def scrapeErrorBody (msg : String) : Json :=
  .obj [("error", .str "Failed to run scraper"), ("details", .str msg)]

/-- The 500 response of the `POST /api/scrape` `catch` branch. -/
def scrapeFailureResponse (msg : String) : Response :=
  ⟨500, scrapeErrorBody msg⟩

/-- Success body of `POST /api/scrape`.  `events_count: events.length` is
dropped from the serialized body when `.length` is `undefined`
(`JSON.stringify` omits properties whose value is `undefined`). -/
def scrapeSuccessBody (events : Json) : Json :=
  .obj ([("success", .bool true), ("message", .str "Scraping completed successfully")]
    ++ (match jsLength events with
        | some n => [("events_count", Json.num n)]
        | none => [])
    ++ [("data", events)])

/-- The message of the `TypeError` thrown by `events.length` when the parsed
value is `null`. -/
def nullLengthError : String := "Cannot read properties of null (reading 'length')"

/-- The `POST /api/scrape` handler of `src/backend/server.js`.  The single
`try` covers the subprocess, the file read, `JSON.parse`, and the
`events.length` access inside the response object; any rejection or throw
lands in the `catch`, which sends a 500 with the error message.  `stderr` of
a status-0 subprocess is only logged, never used for control flow. -/
def postScrapeResponse (exec : ExecResult) (read : ReadResult)
    (parse : String → ParseResult) : Response :=
  match exec with
  | .failure msg => scrapeFailureResponse msg
  | .success _ _ =>
    match read with
    | .failure msg => scrapeFailureResponse msg
    | .success content =>
      match parse content with
      | .parseError msg => scrapeFailureResponse msg
      | .ok events =>
        if events.isNull then scrapeFailureResponse nullLengthError
        else ⟨200, scrapeSuccessBody events⟩

/-! ### Storage and the run step

The only storage the server touches is `data/latest_events.json`.  A
`Storage` is its current state (`none`: the file does not exist).  The server
handlers never write; the scraper subprocess is the only writer. -/

/-- State of `data/latest_events.json`. -/
structure Storage where
  latest : Option String
deriving DecidableEq

/-- `fs.readFile` on `latest_events.json` against a storage state. -/
def readLatest (st : Storage) : ReadResult :=
  match st.latest with
  | some content => .success content
  | none => .failure "ENOENT: no such file or directory"

/-- One `GET /api/events` request as a step on storage: the handler only
reads, so the state component is returned unchanged — there is no write call
anywhere in the handler. -/
def getEventsStep (parse : String → ParseResult) (now : String) (st : Storage) :
    Response × Storage :=
  (getEventsResponse (readLatest st) parse now, st)

/-- Observable behaviour of one scraper run (what `python3 scraper.py` does). -/
inductive ScraperBehavior where
  | failure (msg : String)
  | success (stdout stderr newLatest : String)

/-- Modelled from the spec: `scraper.py` (the Run Controller and Store of
§4.5–§4.6) is not among the sources.  Per §7, `FetchError` and
`ExtractionError` abort the run before any write, leaving prior storage
untouched; per §4.5, a successful run replaces the latest-pointer file with
this run's output. -/
def runScraper (b : ScraperBehavior) (st : Storage) : ExecResult × Storage :=
  match b with
  | .failure msg => (.failure msg, st)
  | .success stdout stderr newLatest => (.success stdout stderr, ⟨some newLatest⟩)

/-- One `POST /api/scrape` request as a step on storage: run the scraper
subprocess (the only writer), then the handler reads back the file.  The
handler itself performs no write. -/
def postScrapeStep (b : ScraperBehavior) (parse : String → ParseResult)
    (st : Storage) : Response × Storage :=
  let r := runScraper b st
  (postScrapeResponse r.1 (readLatest r.2) parse, r.2)

/-! ### The Deduplicator (modelled from the spec)

The Deduplicator lives in `scraper.py`, which is not among the sources; all
definitions in this section are modelled from §3, §4.4 and §8 of the spec. -/

/-- Modelled from the spec: the canonical Event record of §3 (string fields
as scraped/normalized; `scraped_at` is the ISO timestamp string). -/
structure Event where
  artist : String
  venue : String
  event_name : String
  location : String
  date : String
  time : String
  age : String
  price : String
  url : String
  scraped_at : String
  day_of_week : String
deriving DecidableEq

/-- ASCII lowercase of a string, character by character (the model of
case-insensitive comparison; `String.toLower` itself, via `String.mapAux`,
does not reduce in the kernel, so the map is taken over `String.data`). -/
def lowerStr (s : String) : String := String.mk (s.data.map Char.toLower)

/-- Identity key of a record (§4.4): either the case-insensitive
(artist, venue, date) tuple, or the record's permalink. -/
inductive IdentityKey where
  | byFields (artist venue date : String)
  | byUrl (url : String)
deriving DecidableEq

/-- Modelled from the spec (§4.4): the identity key is the case-insensitive
tuple of (artist, venue, date) when `url` is empty, and `url` alone when it
is non-empty (the default for `url` being the empty string, §3, non-empty
implies non-default). -/
def identityKey (e : Event) : IdentityKey :=
  if e.url = "" then .byFields (lowerStr e.artist) (lowerStr e.venue) (lowerStr e.date)
  else .byUrl e.url

/-- Modelled from the spec (§4.4): one pass over the run's records, keeping a
record exactly when its identity key has not been seen before. -/
def dedupeAux (seen : List IdentityKey) : List Event → List Event
  | [] => []
  | e :: rest =>
    if identityKey e ∈ seen then dedupeAux seen rest
    else e :: dedupeAux (identityKey e :: seen) rest

/-- Modelled from the spec (§4.4): the Deduplicator on one run's list. -/
def dedupe (events : List Event) : List Event := dedupeAux [] events

/-! ### The `last_updated` value the spec prescribes (§4.5)

Used only to compare the served value against the spec's description. -/

/-- Lexicographic comparison on character lists (kernel-reducible, unlike
`String.ltb`). -/
def charListLt : List Char → List Char → Bool
  | _, [] => false
  | [], _ :: _ => true
  | a :: as, b :: bs => a.toNat < b.toNat || (a == b && charListLt as bs)

/-- Lexicographic maximum of two strings (on ISO-8601 timestamps this is the
later timestamp). -/
def strMax (a b : String) : String := if charListLt a.data b.data then b else a

/-- The `scraped_at` string fields of a list of JSON records. -/
def scrapedAtStrings (records : List Json) : List String :=
  records.filterMap fun e =>
    match lookupField e "scraped_at" with
    | some (.str s) => some s
    | _ => none

/-- The `last_updated` value §4.5 prescribes for the latest document: the
maximum `scraped_at` over the run's records, or the run timestamp when no
record carries one. -/
def specMaxScrapedAt (records : List Json) (runTs : String) : String :=
  match scrapedAtStrings records with
  | [] => runTs
  | s :: rest => rest.foldl strMax s

/-! ### Claims about `GET /api/events` -/

/-- C1: for every `GET /api/events` request made when `latest_events.json`
does not exist or cannot be read, the response is a success object whose
`data` field is the empty array and whose `source` field is the string
`"none"`. -/
theorem c1_unreadable_file_yields_empty_none
    (msg now : String) (parse : String → ParseResult) :
    (getEventsResponse (.failure msg) parse now).status = 200
    ∧ lookupField (getEventsResponse (.failure msg) parse now).body "success"
        = some (.bool true)
    ∧ lookupField (getEventsResponse (.failure msg) parse now).body "data"
        = some (.arr [])
    ∧ lookupField (getEventsResponse (.failure msg) parse now).body "source"
        = some (.str "none") :=
  ⟨rfl, rfl, rfl, rfl⟩

/-- C9: for every `GET /api/events` request, a file-read failure and a
JSON-parse failure produce the identical HTTP-200 response with empty `data`
and `source` `"none"`; a corrupt stored file never yields an error status
from this endpoint. -/
theorem c9_read_and_parse_failures_indistinguishable
    (msgR msgP content now : String) (parse : String → ParseResult)
    (hp : parse content = .parseError msgP) :
    getEventsResponse (.failure msgR) parse now
      = getEventsResponse (.success content) parse now
    ∧ (getEventsResponse (.success content) parse now).status = 200
    ∧ lookupField (getEventsResponse (.success content) parse now).body "data"
        = some (.arr [])
    ∧ lookupField (getEventsResponse (.success content) parse now).body "source"
        = some (.str "none") := by
  have hr : getEventsResponse (.success content) parse now = ⟨200, noneBody⟩ := by
    simp only [getEventsResponse]
    rw [hp]
  rw [hr]
  exact ⟨rfl, rfl, rfl, rfl⟩

/-- Witness for C9 at a concrete unparseable file. -/
theorem c9_witness :
    getEventsResponse (.failure "ENOENT: no such file or directory")
        (fun _ => .parseError "Unexpected token o in JSON") "2025-01-01T00:00:00.000Z"
      = getEventsResponse (.success "not json")
        (fun _ => .parseError "Unexpected token o in JSON") "2025-01-01T00:00:00.000Z"
    ∧ (getEventsResponse (.success "not json")
        (fun _ => .parseError "Unexpected token o in JSON") "2025-01-01T00:00:00.000Z").status = 200
    ∧ lookupField (getEventsResponse (.success "not json")
        (fun _ => .parseError "Unexpected token o in JSON") "2025-01-01T00:00:00.000Z").body "data"
        = some (.arr [])
    ∧ lookupField (getEventsResponse (.success "not json")
        (fun _ => .parseError "Unexpected token o in JSON") "2025-01-01T00:00:00.000Z").body "source"
        = some (.str "none") :=
  c9_read_and_parse_failures_indistinguishable "ENOENT: no such file or directory"
    "Unexpected token o in JSON" "not json" "2025-01-01T00:00:00.000Z"
    (fun _ => .parseError "Unexpected token o in JSON") rfl

/-! ### Claims about `POST /api/scrape` -/

/-- Whether anything the `POST /api/scrape` `try` block awaits has failed:
the subprocess, the file read, or `JSON.parse`. -/
def scrapeFailed (exec : ExecResult) (read : ReadResult)
    (parse : String → ParseResult) : Bool :=
  match exec with
  | .failure _ => true
  | .success _ _ =>
    match read with
    | .failure _ => true
    | .success content =>
      match parse content with
      | .parseError _ => true
      | .ok _ => false

/-- C4: `POST /api/scrape` reports success only after the scrape completed
and the persisted file is readable and parseable: if the subprocess fails or
`latest_events.json` cannot be read and parsed, the response is HTTP 500
carrying diagnostic text, never a success body. -/
theorem c4_scrape_no_success_on_failure
    (exec : ExecResult) (read : ReadResult) (parse : String → ParseResult)
    (h : scrapeFailed exec read parse = true) :
    (postScrapeResponse exec read parse).status = 500
    ∧ lookupField (postScrapeResponse exec read parse).body "success" = none
    ∧ lookupField (postScrapeResponse exec read parse).body "error"
        = some (.str "Failed to run scraper")
    ∧ ∃ msg, lookupField (postScrapeResponse exec read parse).body "details"
        = some (.str msg) := by
  cases exec with
  | failure m => exact ⟨rfl, rfl, rfl, m, rfl⟩
  | success so se =>
    cases read with
    | failure m => exact ⟨rfl, rfl, rfl, m, rfl⟩
    | success content =>
      cases hp : parse content with
      | parseError m =>
        have hr : postScrapeResponse (.success so se) (.success content) parse
            = scrapeFailureResponse m := by
          simp only [postScrapeResponse]
          rw [hp]
        rw [hr]
        exact ⟨rfl, rfl, rfl, m, rfl⟩
      | ok v =>
        exfalso
        simp only [scrapeFailed] at h
        rw [hp] at h
        exact Bool.false_ne_true h

/-- Witness for C4 at a concrete failing subprocess. -/
theorem c4_witness :
    (postScrapeResponse (.failure "Command failed: python3 scraper.py")
        (.failure "ENOENT: no such file or directory")
        (fun _ => .parseError "Unexpected end of JSON input")).status = 500
    ∧ lookupField (postScrapeResponse (.failure "Command failed: python3 scraper.py")
        (.failure "ENOENT: no such file or directory")
        (fun _ => .parseError "Unexpected end of JSON input")).body "success" = none
    ∧ lookupField (postScrapeResponse (.failure "Command failed: python3 scraper.py")
        (.failure "ENOENT: no such file or directory")
        (fun _ => .parseError "Unexpected end of JSON input")).body "error"
        = some (.str "Failed to run scraper")
    ∧ ∃ msg, lookupField (postScrapeResponse (.failure "Command failed: python3 scraper.py")
        (.failure "ENOENT: no such file or directory")
        (fun _ => .parseError "Unexpected end of JSON input")).body "details"
        = some (.str msg) :=
  c4_scrape_no_success_on_failure (.failure "Command failed: python3 scraper.py")
    (.failure "ENOENT: no such file or directory")
    (fun _ => .parseError "Unexpected end of JSON input") rfl

/-- C7: a run that fails before persisting (in particular a failing scraper
subprocess behind `POST /api/scrape`) leaves the stored
`latest_events.json` identical before and after the attempt, and the
server's handlers perform no write to storage on any path. -/
theorem c7_failed_run_leaves_storage_untouched
    (msg now : String) (parse : String → ParseResult) (st : Storage) :
    (postScrapeStep (.failure msg) parse st).2 = st
    ∧ (postScrapeStep (.failure msg) parse st).2.latest = st.latest
    ∧ (getEventsStep parse now st).2 = st :=
  ⟨rfl, rfl, rfl⟩

/-- C3 fails on the code at a stored file that parses to JSON `null` (the
string `"null"` is valid JSON): `events.length` throws, the inner `catch`
answers, and the served `data` is `[]` with `source` `"none"` instead of the
parsed contents with `source` `"scraped"`. -/
theorem c3_counterexample :
    lookupField (getEventsResponse (.success "null") (fun _ => .ok .null)
        "2025-01-01T00:00:00.000Z").body "data" = some (.arr [])
    ∧ lookupField (getEventsResponse (.success "null") (fun _ => .ok .null)
        "2025-01-01T00:00:00.000Z").body "source" = some (.str "none")
    ∧ some (Json.arr []) ≠ some Json.null
    ∧ Json.str "none" ≠ Json.str "scraped" := by
  refine ⟨rfl, rfl, ?_, ?_⟩
  · intro h
    injection h with h2
    injection h2
  · intro h
    injection h with h2
    exact absurd h2 (by decide)

/-- C3 (amended): for every `GET /api/events` request where
`latest_events.json` is readable and parses as JSON to a value other than
JSON `null`, the response's `data` field equals exactly the full parsed
contents of the file, with `source` `"scraped"` — no record is added,
dropped, or modified in serving.  (A file parsing to `null` is served as the
no-data response instead.) -/
theorem c3_amended_data_served_verbatim
    (content now : String) (parse : String → ParseResult) (events : Json)
    (hp : parse content = .ok events) (hn : events.isNull = false) :
    (getEventsResponse (.success content) parse now).status = 200
    ∧ lookupField (getEventsResponse (.success content) parse now).body "success"
        = some (.bool true)
    ∧ lookupField (getEventsResponse (.success content) parse now).body "data"
        = some events
    ∧ lookupField (getEventsResponse (.success content) parse now).body "source"
        = some (.str "scraped") := by
  have hr : getEventsResponse (.success content) parse now
      = ⟨200, scrapedBody events now⟩ := by
    simp [getEventsResponse, hp, hn]
  rw [hr]
  exact ⟨rfl, rfl, rfl, rfl⟩

/-- Witness for C3 (amended) at a concrete one-record file. -/
theorem c3_amended_witness :
    lookupField (getEventsResponse (.success "[]")
        (fun _ => .ok (.arr [.obj [("artist", .str "Bruce Wayne")]]))
        "2025-07-21T19:21:31.308287").body "data"
      = some (.arr [.obj [("artist", .str "Bruce Wayne")]]) :=
  (c3_amended_data_served_verbatim "[]" "2025-07-21T19:21:31.308287"
    (fun _ => .ok (.arr [.obj [("artist", .str "Bruce Wayne")]]))
    (.arr [.obj [("artist", .str "Bruce Wayne")]]) rfl rfl).2.2.1

/-- C6 fails on the code: in the `"none"` case the served document carries no
`last_updated` field at all (only `success`, `data`, `source`, `message`). -/
theorem c6_counterexample :
    lookupField (getEventsResponse (.failure "ENOENT: no such file or directory")
        (fun _ => .parseError "unexpected") "2025-01-01T00:00:00.000Z").body
        "last_updated" = none :=
  rfl

/-- C6 (amended): only the `"scraped"`-case document served by
`GET /api/events` contains a `last_updated` field (the first record's truthy
`scraped_at`, or the serve-time timestamp); the `"none"`-case document
contains no `last_updated` field and carries a `message` field instead. -/
theorem c6_amended_last_updated_only_when_scraped
    (content now msg : String) (parse : String → ParseResult) (events : Json)
    (hp : parse content = .ok events) (hn : events.isNull = false) :
    lookupField (getEventsResponse (.success content) parse now).body "last_updated"
      = some (lastUpdatedValue events now)
    ∧ lookupField (getEventsResponse (.failure msg) parse now).body "last_updated"
      = none
    ∧ lookupField (getEventsResponse (.failure msg) parse now).body "message"
      = some (.str "No events data available. Run the scraper to fetch today's events.") := by
  have hr : getEventsResponse (.success content) parse now
      = ⟨200, scrapedBody events now⟩ := by
    simp [getEventsResponse, hp, hn]
  rw [hr]
  exact ⟨rfl, rfl, rfl⟩

/-- Witness for C6 (amended) at a concrete one-record file. -/
theorem c6_amended_witness :
    lookupField (getEventsResponse (.success "[]")
        (fun _ => .ok (.arr [.obj [("scraped_at", .str "2025-07-21T19:21:31")]]))
        "2025-07-21T23:00:00.000Z").body "last_updated"
      = some (lastUpdatedValue (.arr [.obj [("scraped_at", .str "2025-07-21T19:21:31")]])
          "2025-07-21T23:00:00.000Z") :=
  (c6_amended_last_updated_only_when_scraped "[]" "2025-07-21T23:00:00.000Z"
    "ENOENT" (fun _ => .ok (.arr [.obj [("scraped_at", .str "2025-07-21T19:21:31")]]))
    (.arr [.obj [("scraped_at", .str "2025-07-21T19:21:31")]]) rfl rfl).1

/-- C10 fails on the code at a persisted file that parses to JSON `null`:
the subprocess exits with status 0 and the output file parses, yet the
endpoint responds 500 (the non-empty stderr playing no role either way). -/
theorem c10_counterexample :
    (postScrapeResponse (.success "Scraped 0 events" "DeprecationWarning: ...")
        (.success "null") (fun _ => .ok .null)).status = 500
    ∧ lookupField (postScrapeResponse (.success "Scraped 0 events" "DeprecationWarning: ...")
        (.success "null") (fun _ => .ok .null)).body "success" = none :=
  ⟨rfl, rfl⟩

/-- C10 (amended): the `POST /api/scrape` response is independent of the
subprocess's stderr, and for any scrape whose subprocess exits with status 0
and whose output file parses to a non-`null` value, the endpoint reports
success even when stderr is non-empty. -/
theorem c10_amended_outcome_independent_of_stderr
    (so se se' content : String) (read : ReadResult) (parse : String → ParseResult)
    (events : Json) (hp : parse content = .ok events) (hn : events.isNull = false) :
    postScrapeResponse (.success so se) read parse
      = postScrapeResponse (.success so se') read parse
    ∧ (postScrapeResponse (.success so se) (.success content) parse).status = 200
    ∧ lookupField (postScrapeResponse (.success so se) (.success content) parse).body
        "success" = some (.bool true) := by
  have hr : postScrapeResponse (.success so se) (.success content) parse
      = ⟨200, scrapeSuccessBody events⟩ := by
    simp [postScrapeResponse, hp, hn]
  refine ⟨rfl, ?_, ?_⟩
  · rw [hr]
  · rw [hr]
    rfl

/-- Witness for C10 (amended): non-empty stderr, empty stderr, and a
successful parse at a concrete input. -/
theorem c10_amended_witness :
    postScrapeResponse (.success "ok" "DeprecationWarning: ...") (.failure "ENOENT")
        (fun _ => .ok (.arr []))
      = postScrapeResponse (.success "ok" "") (.failure "ENOENT")
        (fun _ => .ok (.arr []))
    ∧ (postScrapeResponse (.success "ok" "DeprecationWarning: ...") (.success "[]")
        (fun _ => .ok (.arr []))).status = 200
    ∧ lookupField (postScrapeResponse (.success "ok" "DeprecationWarning: ...")
        (.success "[]") (fun _ => .ok (.arr []))).body "success" = some (.bool true) :=
  c10_amended_outcome_independent_of_stderr "ok" "DeprecationWarning: ..." "" "[]"
    (.failure "ENOENT") (fun _ => .ok (.arr [])) (.arr []) rfl rfl

/-- C5: whenever `POST /api/scrape` completes successfully, its response
reports an `events_count` equal to the number of records in the array parsed
from the persisted `latest_events.json` after the scrape. -/
theorem c5_success_reports_persisted_count
    (so se newLatest : String) (parse : String → ParseResult) (st : Storage)
    (xs : List Json) (hp : parse newLatest = .ok (.arr xs)) :
    ((postScrapeStep (.success so se newLatest) parse st).1).status = 200
    ∧ lookupField ((postScrapeStep (.success so se newLatest) parse st).1).body
        "events_count" = some (.num xs.length)
    ∧ lookupField ((postScrapeStep (.success so se newLatest) parse st).1).body
        "data" = some (.arr xs) := by
  have hr : (postScrapeStep (.success so se newLatest) parse st).1
      = ⟨200, scrapeSuccessBody (.arr xs)⟩ := by
    show postScrapeResponse (.success so se) (.success newLatest) parse = _
    simp only [postScrapeResponse]
    rw [hp]
    rfl
  rw [hr]
  exact ⟨rfl, rfl, rfl⟩

/-- Witness for C5 at a concrete two-record scrape. -/
theorem c5_witness :
    lookupField ((postScrapeStep (.success "Scraped 2 events" "" "FILE")
        (fun _ => .ok (.arr [.obj [("artist", .str "Bruce Wayne")],
                             .obj [("artist", .str "CMD+JAZMINE")]]))
        ⟨none⟩).1).body "events_count" = some (.num 2) :=
  (c5_success_reports_persisted_count "Scraped 2 events" "" "FILE"
    (fun _ => .ok (.arr [.obj [("artist", .str "Bruce Wayne")],
                         .obj [("artist", .str "CMD+JAZMINE")]]))
    ⟨none⟩ [.obj [("artist", .str "Bruce Wayne")], .obj [("artist", .str "CMD+JAZMINE")]]
    rfl).2.1

/-- A run output with two records carrying distinct per-record `scraped_at`
stamps, the later one second (per §4.3 `scraped_at` may be assigned per
record). -/
def twoStampRecords : List Json :=
  [.obj [("artist", .str "Bruce Wayne"), ("scraped_at", .str "2025-07-21T10:00:00")],
   .obj [("artist", .str "CMD+JAZMINE"), ("scraped_at", .str "2025-07-21T12:00:00")]]

/-- Parser behaviour for the file persisted in the `twoStampRecords` run. -/
def twoStampParse : String → ParseResult := fun _ => .ok (.arr twoStampRecords)

/-- C2 fails on the code: after a successful run persisting two records whose
`scraped_at` stamps differ, `GET /api/events` serves `last_updated` equal to
the FIRST record's `scraped_at` (`events[0]?.scraped_at`), which is not the
maximum over the run's records. -/
theorem c2_counterexample :
    lookupField ((getEventsStep twoStampParse "2025-07-21T23:59:59.000Z"
        ((postScrapeStep (.success "Scraped 2 events" "" "FILE") twoStampParse
            ⟨none⟩).2)).1.body) "last_updated"
      = some (.str "2025-07-21T10:00:00")
    ∧ specMaxScrapedAt twoStampRecords "2025-07-21T23:59:59.000Z"
      = "2025-07-21T12:00:00"
    ∧ Json.str "2025-07-21T10:00:00" ≠ Json.str "2025-07-21T12:00:00" := by
  refine ⟨rfl, by decide, ?_⟩
  intro h
  injection h with h2
  exact absurd h2 (by decide)

/-- C2 (amended): for every successful run whose record list is non-empty,
the `last_updated` field served by `GET /api/events` equals the FIRST
record's `scraped_at` when that value is present and truthy (falling back to
the serve-time timestamp otherwise) — not the maximum `scraped_at` over the
run's records. -/
theorem c2_amended_last_updated_is_first_record
    (content now s : String) (parse : String → ParseResult)
    (e : Json) (rest : List Json)
    (hp : parse content = .ok (.arr (e :: rest)))
    (hs : lookupField e "scraped_at" = some (.str s)) (hne : s ≠ "") :
    lookupField (getEventsResponse (.success content) parse now).body "last_updated"
      = some (.str s) := by
  have hr : getEventsResponse (.success content) parse now
      = ⟨200, scrapedBody (.arr (e :: rest)) now⟩ := by
    simp [getEventsResponse, hp, Json.isNull]
  rw [hr]
  have h0 : firstScrapedAt (.arr (e :: rest)) = some (.str s) := hs
  have hl : lastUpdatedValue (.arr (e :: rest)) now = .str s := by
    simp only [lastUpdatedValue]
    rw [h0]
    simp [jsTruthy, hne]
  rw [show lookupField (scrapedBody (.arr (e :: rest)) now) "last_updated"
      = some (lastUpdatedValue (.arr (e :: rest)) now) from rfl, hl]

/-- Witness for C2 (amended) at the concrete two-record run. -/
theorem c2_amended_witness :
    lookupField (getEventsResponse (.success "FILE") twoStampParse
        "2025-07-21T23:59:59.000Z").body "last_updated"
      = some (.str "2025-07-21T10:00:00") :=
  c2_amended_last_updated_is_first_record "FILE" "2025-07-21T23:59:59.000Z"
    "2025-07-21T10:00:00" twoStampParse
    (.obj [("artist", .str "Bruce Wayne"), ("scraped_at", .str "2025-07-21T10:00:00")])
    [.obj [("artist", .str "CMD+JAZMINE"), ("scraped_at", .str "2025-07-21T12:00:00")]]
    rfl rfl (by decide)

/-! ### Claims about the Deduplicator -/

/-- No element of a `dedupeAux` result has a key that was already seen. -/
theorem dedupeAux_key_not_seen (l : List Event) :
    ∀ (seen : List IdentityKey) (e : Event),
      e ∈ dedupeAux seen l → identityKey e ∉ seen := by
  induction l with
  | nil =>
    intro seen e he
    simp [dedupeAux] at he
  | cons a rest ih =>
    intro seen e he
    by_cases h : identityKey a ∈ seen
    · rw [show dedupeAux seen (a :: rest) = dedupeAux seen rest from by
        simp only [dedupeAux, if_pos h]] at he
      exact ih seen e he
    · rw [show dedupeAux seen (a :: rest)
          = a :: dedupeAux (identityKey a :: seen) rest from by
        simp only [dedupeAux, if_neg h]] at he
      rcases List.mem_cons.mp he with rfl | he'
      · exact h
      · intro hs
        exact ih (identityKey a :: seen) e he' (List.mem_cons_of_mem _ hs)

/-- `dedupeAux` returns a sublist of its input (first-seen order preserved). -/
theorem dedupeAux_sublist (l : List Event) :
    ∀ seen : List IdentityKey, (dedupeAux seen l).Sublist l := by
  induction l with
  | nil =>
    intro seen
    simp [dedupeAux]
  | cons a rest ih =>
    intro seen
    by_cases h : identityKey a ∈ seen
    · rw [show dedupeAux seen (a :: rest) = dedupeAux seen rest from by
        simp only [dedupeAux, if_pos h]]
      exact (ih seen).cons a
    · rw [show dedupeAux seen (a :: rest)
          = a :: dedupeAux (identityKey a :: seen) rest from by
        simp only [dedupeAux, if_neg h]]
      exact (ih (identityKey a :: seen)).cons₂ a

/-- No two elements of a `dedupeAux` result share an identity key. -/
theorem dedupeAux_pairwise (l : List Event) :
    ∀ seen : List IdentityKey,
      (dedupeAux seen l).Pairwise (fun a b => identityKey a ≠ identityKey b) := by
  induction l with
  | nil =>
    intro seen
    simp [dedupeAux]
  | cons a rest ih =>
    intro seen
    by_cases h : identityKey a ∈ seen
    · rw [show dedupeAux seen (a :: rest) = dedupeAux seen rest from by
        simp only [dedupeAux, if_pos h]]
      exact ih seen
    · rw [show dedupeAux seen (a :: rest)
          = a :: dedupeAux (identityKey a :: seen) rest from by
        simp only [dedupeAux, if_neg h]]
      refine List.Pairwise.cons ?_ (ih (identityKey a :: seen))
      intro b hb heq
      refine dedupeAux_key_not_seen rest (identityKey a :: seen) b hb ?_
      rw [← heq]
      exact List.mem_cons_self _ _

/-- Every kept element is the first element of the input carrying its key,
among those whose key was not already seen. -/
theorem dedupeAux_keeps_first (l : List Event) :
    ∀ (seen : List IdentityKey) (e : Event), e ∈ dedupeAux seen l →
      ∃ pre post, l = pre ++ e :: post
        ∧ ∀ x ∈ pre, identityKey x = identityKey e → identityKey x ∈ seen := by
  induction l with
  | nil =>
    intro seen e he
    simp [dedupeAux] at he
  | cons a rest ih =>
    intro seen e he
    by_cases h : identityKey a ∈ seen
    · rw [show dedupeAux seen (a :: rest) = dedupeAux seen rest from by
        simp only [dedupeAux, if_pos h]] at he
      obtain ⟨pre, post, hl, hpre⟩ := ih seen e he
      refine ⟨a :: pre, post, by rw [hl]; rfl, ?_⟩
      intro x hx hkey
      rcases List.mem_cons.mp hx with rfl | hx'
      · exact h
      · exact hpre x hx' hkey
    · rw [show dedupeAux seen (a :: rest)
          = a :: dedupeAux (identityKey a :: seen) rest from by
        simp only [dedupeAux, if_neg h]] at he
      rcases List.mem_cons.mp he with rfl | he'
      · exact ⟨[], rest, rfl, by intro x hx; simp at hx⟩
      · have hnot := dedupeAux_key_not_seen rest (identityKey a :: seen) e he'
        have hea : identityKey e ≠ identityKey a := by
          intro hk
          refine hnot ?_
          rw [hk]
          exact List.mem_cons_self _ _
        obtain ⟨pre, post, hl, hpre⟩ := ih (identityKey a :: seen) e he'
        refine ⟨a :: pre, post, by rw [hl]; rfl, ?_⟩
        intro x hx hkey
        rcases List.mem_cons.mp hx with rfl | hx'
        · exact absurd hkey (fun hh => hea hh.symm)
        · rcases List.mem_cons.mp (hpre x hx' hkey) with heq | hmem
          · exact absurd (hkey.symm.trans heq) hea
          · exact hmem

/-- Every input key is represented in the `dedupeAux` output or was seen. -/
theorem dedupeAux_covers (l : List Event) :
    ∀ (seen : List IdentityKey) (e : Event), e ∈ l →
      identityKey e ∈ seen
      ∨ ∃ f ∈ dedupeAux seen l, identityKey f = identityKey e := by
  induction l with
  | nil =>
    intro seen e he
    simp at he
  | cons a rest ih =>
    intro seen e he
    by_cases h : identityKey a ∈ seen
    · rw [show dedupeAux seen (a :: rest) = dedupeAux seen rest from by
        simp only [dedupeAux, if_pos h]]
      rcases List.mem_cons.mp he with rfl | he'
      · exact .inl h
      · exact ih seen e he'
    · rw [show dedupeAux seen (a :: rest)
          = a :: dedupeAux (identityKey a :: seen) rest from by
        simp only [dedupeAux, if_neg h]]
      rcases List.mem_cons.mp he with rfl | he'
      · exact .inr ⟨e, List.mem_cons_self _ _, rfl⟩
      · rcases ih (identityKey a :: seen) e he' with hs | ⟨f, hf, hk⟩
        · rcases List.mem_cons.mp hs with heq | hmem
          · exact .inr ⟨a, List.mem_cons_self _ _, heq.symm⟩
          · exact .inl hmem
        · exact .inr ⟨f, List.mem_cons_of_mem _ hf, hk⟩

/-- C8: for every run, the deduplicated output contains no two records
sharing an identity key (case-insensitive (artist, venue, date) when `url`
is empty, `url` alone otherwise), the output is a sublist of the input (so
relative order is preserved), each kept record is the first occurrence of
its key, and every input key is represented. -/
theorem c8_dedupe_no_shared_keys_first_seen_order (l : List Event) :
    (dedupe l).Pairwise (fun a b => identityKey a ≠ identityKey b)
    ∧ (dedupe l).Sublist l
    ∧ (∀ e ∈ dedupe l, ∃ pre post, l = pre ++ e :: post
        ∧ ∀ x ∈ pre, identityKey x ≠ identityKey e)
    ∧ (∀ e ∈ l, ∃ f ∈ dedupe l, identityKey f = identityKey e) := by
  refine ⟨dedupeAux_pairwise l [], dedupeAux_sublist l [], ?_, ?_⟩
  · intro e he
    obtain ⟨pre, post, hl, hpre⟩ := dedupeAux_keeps_first l [] e he
    exact ⟨pre, post, hl, fun x hx hk => (List.not_mem_nil _) (hpre x hx hk)⟩
  · intro e he
    rcases dedupeAux_covers l [] e he with hs | hex
    · exact absurd hs (List.not_mem_nil _)
    · exact hex

/-- A canonical Monday record with the given artist, venue and url, the other
fields per the defaults of §3. -/
def mondayEvent (a v u : String) : Event :=
  ⟨a, v, "", "New York, NY", "Mon Jul 21, 2025", "Check venue", "21+", "N/A", u,
   "2025-07-21T19:21:31", "Monday"⟩

/-- A run with a case-variant duplicate of its first record (Scenario B). -/
def c8SampleRun : List Event :=
  [mondayEvent "Bruce Wayne" "Good Room" "",
   mondayEvent "CMD+JAZMINE" "Montauk Yacht Club" "",
   mondayEvent "BRUCE WAYNE" "good room" ""]

/-- Witness for C8 at a concrete run: the case-variant duplicate is dropped,
the two distinct records survive in first-seen order. -/
theorem c8_witness :
    (dedupe c8SampleRun).Pairwise (fun a b => identityKey a ≠ identityKey b)
    ∧ (dedupe c8SampleRun).Sublist c8SampleRun
    ∧ dedupe c8SampleRun
      = [mondayEvent "Bruce Wayne" "Good Room" "",
         mondayEvent "CMD+JAZMINE" "Montauk Yacht Club" ""] :=
  ⟨(c8_dedupe_no_shared_keys_first_seen_order c8SampleRun).1,
   (c8_dedupe_no_shared_keys_first_seen_order c8SampleRun).2.1,
   by decide⟩

end Beatmap
